import Mathlib

/-!
Shallow embedding of the core facade / plugin-registry subsystem of the
ops-cli repository (files `apis/client_api.py`, `apis/core/plugin.py`,
`apis/core/plugin_base.py`, `apis/plugin_base.py`), together with proofs of
the specification claims about it.

Modelling conventions:
* Python `dict` objects are embedded as association lists
  `List (String × α)` whose keys are kept duplicate-free by the operations
  (Python dicts cannot hold a key twice); `dictLookup` is `d.get`/`d[k]`,
  `dictSet` is `d[k] = v` (replacing in place, preserving insertion order),
  membership `k in d` is `(dictLookup l k).isSome`.
* A raised Python exception is the `.error` case of `Except PyErr α`; by the
  embedding convention an `.error` result leaves every piece of state
  unchanged (all modelled methods raise before mutating).
* Python object identity is modelled by a `Nat` tag drawn from an allocation
  counter carried in the state: two accesses return "the identically-same
  object" exactly when they return equal values carrying the same tag.
* Arbitrary Python callables / objects handed to the core (command callbacks,
  extension objects) are modelled as `Nat` handles; keyword-argument packs
  are modelled as `List (String × Option String)`.
-/

set_option autoImplicit false

/-- Kinds of Python exception raised by the embedded core code. -/
inductive PyErr where
  | valueError (msg : String)
  | attributeError (msg : String)
  | runtimeError (msg : String)
deriving DecidableEq, Repr

/-- Python `d.get(k)` / first-match association-list lookup. -/
def dictLookup {α : Type} : List (String × α) → String → Option α
  | [], _ => none
  | (k, v) :: rest, a => if k = a then some v else dictLookup rest a

/-- Python `d[k] = v`: replace the value at an existing key in place
(keeping its position, as CPython dicts do), otherwise append. -/
def dictSet {α : Type} : List (String × α) → String → α → List (String × α)
  | [], a, v => [(a, v)]
  | (k, w) :: rest, a, v =>
      if k = a then (k, v) :: rest else (k, w) :: dictSet rest a v

/-- Number of entries stored under a key (1 at most for a well-formed dict). -/
def countKey {α : Type} (l : List (String × α)) (a : String) : Nat :=
  l.countP fun kv => decide (kv.1 = a)

/-- Keys of the dict, in insertion order (Python `list(d.keys())`). -/
def dictKeys {α : Type} (l : List (String × α)) : List String :=
  l.map Prod.fst

/-- Configuration model for client APIs (`ClientConfig(BaseModel)` in
`apis/client_api.py`): a flat record of optional string settings, all
defaulting to `None`. -/
structure ClientConfig where
  GITHUB_TOKEN : Option String := none
  JIRA_URL : Option String := none
  JIRA_USERNAME : Option String := none
  JIRA_TOKEN : Option String := none
  CONFLUENCE_URL : Option String := none
  CONFLUENCE_USERNAME : Option String := none
  CONFLUENCE_TOKEN : Option String := none
  GOOGLE_CREDENTIALS_FILE : Option String := none
  KUBE_CONFIG_PATH : Option String := none
  KUBE_CONTEXT : Option String := none
  OPENSEARCH_INITIAL_ADMIN_PASSWORD : Option String := none
deriving DecidableEq, Repr

/-- Python attribute access on a pydantic `ClientConfig` instance.
Pydantic models expose exactly their declared fields as attributes,
case-sensitively; any other attribute name raises `AttributeError`
(modelled as `none`). The declared fields are the UPPER_CASE names above. -/
def ClientConfig.getattr (c : ClientConfig) : String → Option (Option String)
  | "GITHUB_TOKEN" => some c.GITHUB_TOKEN
  | "JIRA_URL" => some c.JIRA_URL
  | "JIRA_USERNAME" => some c.JIRA_USERNAME
  | "JIRA_TOKEN" => some c.JIRA_TOKEN
  | "CONFLUENCE_URL" => some c.CONFLUENCE_URL
  | "CONFLUENCE_USERNAME" => some c.CONFLUENCE_USERNAME
  | "CONFLUENCE_TOKEN" => some c.CONFLUENCE_TOKEN
  | "GOOGLE_CREDENTIALS_FILE" => some c.GOOGLE_CREDENTIALS_FILE
  | "KUBE_CONFIG_PATH" => some c.KUBE_CONFIG_PATH
  | "KUBE_CONTEXT" => some c.KUBE_CONTEXT
  | "OPENSEARCH_INITIAL_ADMIN_PASSWORD" =>
      some c.OPENSEARCH_INITIAL_ADMIN_PASSWORD
  | _ => none

/-- Python truthiness of an optional string: `None` and `""` are falsy. -/
def pyTruthy : Option String → Bool
  | none => false
  | some s => !(s == "")

/-- Capability object constructed by the facade (a `GithubApi`, `JiraApi`,
`ConfluenceApi`, `DockerApi`, `KubernetesApi` or `SSHApi` instance): `id` is
the Python object identity, `kind` the class name, `args` the constructor
arguments it was built from. -/
structure ApiObj where
  id : Nat
  kind : String
  args : List (String × Option String)
deriving DecidableEq, Repr

/-- State of a `ClientApi` facade instance (`apis/client_api.py`): the stored
configuration, the capability cache `_apis`, the extension registry
`_extensions` (whose values may be Python `None`), and the allocation counter
modelling object identity of freshly constructed capability objects. -/
structure ClientApi where
  config : ClientConfig
  _apis : List (String × ApiObj) := []
  _extensions : List (String × Option Nat) := []
  alloc : Nat := 0
deriving DecidableEq, Repr

/-- Accessor `ClientApi.github` (lines 118-125): on a cache miss it evaluates
`self.config.github_token`; `ClientConfig` declares `GITHUB_TOKEN`, not
`github_token`, so that attribute access raises `AttributeError` (the
`getattr` result is `none`). The guard and construction below it mirror the
source and are reachable only if the attribute existed. -/
def ClientApi.github (s : ClientApi) : Except PyErr (ApiObj × ClientApi) :=
  match dictLookup s._apis "github" with
  | some obj => .ok (obj, s)
  | none =>
    match s.config.getattr "github_token" with
    | none => .error (.attributeError
        "ClientConfig object has no attribute github_token")
    | some tok =>
      if !(pyTruthy tok) then
        .error (.valueError "GitHub token not configured")
      else
        let obj : ApiObj :=
          { id := s.alloc, kind := "GithubApi", args := [("token", tok)] }
        .ok (obj, { s with _apis := s._apis ++ [("github", obj)],
                           alloc := s.alloc + 1 })

/-- Accessor `ClientApi.jira` (lines 127-144): on a cache miss it evaluates
`all([self.config.jira_url, self.config.jira_username,
self.config.jira_token])`; the first attribute access (`jira_url`) raises
`AttributeError` because the declared field is `JIRA_URL`. -/
def ClientApi.jira (s : ClientApi) : Except PyErr (ApiObj × ClientApi) :=
  match dictLookup s._apis "jira" with
  | some obj => .ok (obj, s)
  | none =>
    match s.config.getattr "jira_url" with
    | none => .error (.attributeError
        "ClientConfig object has no attribute jira_url")
    | some url =>
      match s.config.getattr "jira_username" with
      | none => .error (.attributeError
          "ClientConfig object has no attribute jira_username")
      | some user =>
        match s.config.getattr "jira_token" with
        | none => .error (.attributeError
            "ClientConfig object has no attribute jira_token")
        | some tok =>
          if !(pyTruthy url && pyTruthy user && pyTruthy tok) then
            .error (.valueError "Jira configuration incomplete")
          else
            let obj : ApiObj :=
              { id := s.alloc, kind := "JiraApi",
                args := [("server_url", url), ("username", user),
                         ("token", tok)] }
            .ok (obj, { s with _apis := s._apis ++ [("jira", obj)],
                               alloc := s.alloc + 1 })

/-- Accessor `ClientApi.confluence` (lines 146-164): same shape as `jira`;
the first attribute access (`confluence_url`) raises `AttributeError`
because the declared field is `CONFLUENCE_URL`. -/
def ClientApi.confluence (s : ClientApi) : Except PyErr (ApiObj × ClientApi) :=
  match dictLookup s._apis "confluence" with
  | some obj => .ok (obj, s)
  | none =>
    match s.config.getattr "confluence_url" with
    | none => .error (.attributeError
        "ClientConfig object has no attribute confluence_url")
    | some url =>
      match s.config.getattr "confluence_username" with
      | none => .error (.attributeError
          "ClientConfig object has no attribute confluence_username")
      | some user =>
        match s.config.getattr "confluence_token" with
        | none => .error (.attributeError
            "ClientConfig object has no attribute confluence_token")
        | some tok =>
          if !(pyTruthy url && pyTruthy user && pyTruthy tok) then
            .error (.valueError "Confluence configuration incomplete")
          else
            let obj : ApiObj :=
              { id := s.alloc, kind := "ConfluenceApi",
                args := [("url", url), ("username", user),
                         ("api_token", tok), ("cloud", some "True")] }
            .ok (obj, { s with _apis := s._apis ++ [("confluence", obj)],
                               alloc := s.alloc + 1 })

/-- Accessor `ClientApi.docker` (lines 166-171): no configuration is read;
on a cache miss a fresh `DockerApi()` is constructed and cached. -/
def ClientApi.docker (s : ClientApi) : Except PyErr (ApiObj × ClientApi) :=
  match dictLookup s._apis "docker" with
  | some obj => .ok (obj, s)
  | none =>
    let obj : ApiObj := { id := s.alloc, kind := "DockerApi", args := [] }
    .ok (obj, { s with _apis := s._apis ++ [("docker", obj)],
                       alloc := s.alloc + 1 })

/-- Accessor `ClientApi.kubernetes` (lines 173-180): on a cache miss it
evaluates `self.config.kube_context` as a constructor argument; the declared
field is `KUBE_CONTEXT`, so the access raises `AttributeError`. -/
def ClientApi.kubernetes (s : ClientApi) : Except PyErr (ApiObj × ClientApi) :=
  match dictLookup s._apis "kubernetes" with
  | some obj => .ok (obj, s)
  | none =>
    match s.config.getattr "kube_context" with
    | none => .error (.attributeError
        "ClientConfig object has no attribute kube_context")
    | some ctx =>
      let obj : ApiObj :=
        { id := s.alloc, kind := "KubernetesApi",
          args := [("context_name", ctx)] }
      .ok (obj, { s with _apis := s._apis ++ [("kubernetes", obj)],
                         alloc := s.alloc + 1 })

/-- Method `ClientApi.ssh(hostname, **kwargs)` (lines 182-189): always
constructs and returns a fresh `SSHApi` instance; nothing is cached. -/
def ClientApi.ssh (s : ClientApi) (hostname : String)
    (kwargs : List (String × Option String)) : ApiObj × ClientApi :=
  ({ id := s.alloc, kind := "SSHApi",
     args := ("hostname", some hostname) :: kwargs },
   { s with alloc := s.alloc + 1 })

/-- Python attribute access for the five cached capability accessors of the
facade, by capability name (the `@property` accessors of `ClientApi`);
any other attribute name raises `AttributeError`. -/
def ClientApi.capabilityAccess (s : ClientApi) :
    String → Except PyErr (ApiObj × ClientApi)
  | "github" => s.github
  | "jira" => s.jira
  | "confluence" => s.confluence
  | "docker" => s.docker
  | "kubernetes" => s.kubernetes
  | other => .error (.attributeError
      ("ClientApi object has no attribute " ++ other))

/-- Method `ClientApi.register_extension` (lines 80-89): raises `ValueError`
if the name is already a key of `_extensions` (even one whose stored value is
Python `None`), otherwise stores the extension with no validation. -/
def ClientApi.register_extension (s : ClientApi) (name : String)
    (ext : Option Nat) : Except PyErr ClientApi :=
  if (dictLookup s._extensions name).isSome then
    .error (.valueError ("Extension " ++ name ++ " already registered"))
  else
    .ok { s with _extensions := s._extensions ++ [(name, ext)] }

/-- Method `ClientApi.get_extension` (lines 91-97): `self._extensions.get(name)`
returns the stored object, so a stored `None` and a missing key both yield
the `None` sentinel. -/
def ClientApi.get_extension (s : ClientApi) (name : String) : Option Nat :=
  match dictLookup s._extensions name with
  | none => none
  | some v => v

/-- Method `ClientApi.list_extensions` (lines 99-101):
`list(self._extensions.keys())`. -/
def ClientApi.list_extensions (s : ClientApi) : List String :=
  dictKeys s._extensions

/-- Pydantic `model_dump()` on a `ClientConfig`: the field-name/value pairs,
in field declaration order. -/
def ClientConfig.model_dump (c : ClientConfig) :
    List (String × Option String) :=
  [("GITHUB_TOKEN", c.GITHUB_TOKEN),
   ("JIRA_URL", c.JIRA_URL),
   ("JIRA_USERNAME", c.JIRA_USERNAME),
   ("JIRA_TOKEN", c.JIRA_TOKEN),
   ("CONFLUENCE_URL", c.CONFLUENCE_URL),
   ("CONFLUENCE_USERNAME", c.CONFLUENCE_USERNAME),
   ("CONFLUENCE_TOKEN", c.CONFLUENCE_TOKEN),
   ("GOOGLE_CREDENTIALS_FILE", c.GOOGLE_CREDENTIALS_FILE),
   ("KUBE_CONFIG_PATH", c.KUBE_CONFIG_PATH),
   ("KUBE_CONTEXT", c.KUBE_CONTEXT),
   ("OPENSEARCH_INITIAL_ADMIN_PASSWORD",
      c.OPENSEARCH_INITIAL_ADMIN_PASSWORD)]

/-- Process environment `os.environ`, as a partial map from variable name to
value. -/
def Env : Type := String → Option String

/-- Python `str(value)` for a value that is already a `str`. -/
def pyStr (v : String) : String := v

/-- One iteration of the `export_config` loop:
`os.environ[field] = str(value)` when `value is not None`, otherwise the
environment is left alone. -/
def exportStep (env : Env) (kv : String × Option String) : Env :=
  match kv.2 with
  | none => env
  | some v => fun k => if k = kv.1 then some (pyStr v) else env k

/-- Method `ClientApi.export_config` (lines 74-78): iterate over
`self.config.model_dump().items()` writing each non-`None` field into the
environment under the field name. -/
def ClientApi.export_config (s : ClientApi) (env : Env) : Env :=
  s.config.model_dump.foldl exportStep env

/-- Command descriptor `PluginCommand` (`core/plugin_base.py` lines 9-26 and
`apis/plugin_base.py` lines 8-25): name, callback (a Python callable,
modelled as a `Nat` handle), help text and the extra Typer keyword options. -/
structure PluginCommand where
  name : String
  callback : Nat
  help : String
  options : List (String × Option String)
deriving DecidableEq, Repr

/-- Python `str.lower()` (ASCII class names only in this codebase). -/
def pyLower (s : String) : String :=
  ⟨s.data.map Char.toLower⟩

/-- Python `str.endswith(suffix)`. -/
def pyEndsWith (s suffix : String) : Bool :=
  suffix.data.isSuffixOf s.data

/-- Python slicing `s[:-n]`: drop the last `n` characters. -/
def pyDropRight (s : String) (n : Nat) : String :=
  ⟨s.data.take (s.data.length - n)⟩

/-- Worker for `pyReplace`: replace non-overlapping occurrences of `pat`
left to right, with the input length as structural fuel. -/
def pyReplaceAux (pat rep : List Char) : Nat → List Char → List Char
  | 0, l => l
  | _ + 1, [] => []
  | n + 1, c :: rest =>
    if !pat.isEmpty && pat.isPrefixOf (c :: rest) then
      rep ++ pyReplaceAux pat rep n (List.drop (pat.length - 1) rest)
    else
      c :: pyReplaceAux pat rep n rest

/-- Python `s.replace(pat, rep)`: every non-overlapping occurrence,
scanning left to right. -/
def pyReplace (s pat rep : String) : String :=
  ⟨pyReplaceAux pat.data rep.data s.data.length s.data⟩

/-- Plugin name derivation of `PluginBase.name` in `core/plugin_base.py`
(lines 36-44): lowercase the class name, strip a trailing `"plugin"` (6
characters), then turn underscores into dashes. -/
def pluginNameOfClass (className : String) : String :=
  let name := pyLower className
  let name := if pyEndsWith name "plugin" then pyDropRight name 6 else name
  pyReplace name "_" "-"

/-- Plugin name derivation of `PluginBase.name` in the older
`apis/plugin_base.py` (lines 35-38): lowercase the class name and delete
every occurrence of `"plugin"` (Python `str.replace` replaces all). -/
def pluginNameOfClassLegacy (className : String) : String :=
  pyReplace (pyLower className) "plugin" ""

/-- State of a `PluginBase` instance (`core/plugin_base.py` lines 29-68):
the defining class name (from which `name` is derived), the facade handle
received at construction, and the command mapping. -/
structure PluginBase where
  className : String
  client : Nat
  _commands : List (String × PluginCommand) := []
deriving DecidableEq, Repr

/-- Property `PluginBase.name` (`core/plugin_base.py` lines 36-44). -/
def PluginBase.name (p : PluginBase) : String :=
  pluginNameOfClass p.className

/-- Method `PluginBase.register_command` (`core/plugin_base.py` lines 51-64,
identical in `apis/plugin_base.py` lines 45-58): a plain dict assignment
`self._commands[name] = PluginCommand(...)` — total, raising nothing,
overwriting any existing entry under the name. -/
def PluginBase.register_command (p : PluginBase) (name : String)
    (callback : Nat) (help : String)
    (typer_options : List (String × Option String)) : PluginBase :=
  let cmd : PluginCommand :=
    { name := name, callback := callback, help := help,
      options := typer_options }
  { p with _commands := dictSet p._commands name cmd }

/-- A `PluginRegistry` instance (`core/plugin.py` lines 14-16): the plugin
mapping `_plugins`, the sub-Typer groups this registry has mounted onto the
class-level Typer app via `self.app.add_typer` (each group carrying the
plugin commands registered onto it in insertion order), and an identity tag
modelling Python object identity. -/
structure RegistryObj where
  id : Nat
  _plugins : List (String × PluginBase) := []
  mounted : List (String × List PluginCommand) := []
deriving DecidableEq, Repr

/-- Method `PluginRegistry.register_plugin` (`core/plugin.py` lines 43-67):
derive the name from the plugin, fail fast with `ValueError` when it is
already registered (before any mutation), otherwise build the plugin command
group from `plugin.commands.values()`, mount it, and store the plugin. -/
def RegistryObj.register_plugin (r : RegistryObj) (plugin : PluginBase) :
    Except PyErr RegistryObj :=
  let name := plugin.name
  if (dictLookup r._plugins name).isSome then
    .error (.valueError ("Plugin " ++ name ++ " already registered"))
  else
    let plugin_app := plugin._commands.map Prod.snd
    .ok { r with _plugins := r._plugins ++ [(name, plugin)],
                 mounted := r.mounted ++ [(name, plugin_app)] }

/-- Method `PluginRegistry.get_plugin` (`core/plugin.py` lines 69-71). -/
def RegistryObj.get_plugin (r : RegistryObj) (name : String) :
    Option PluginBase :=
  dictLookup r._plugins name

/-- Method `PluginRegistry.list_plugins` (`core/plugin.py` lines 73-75). -/
def RegistryObj.list_plugins (r : RegistryObj) : List String :=
  dictKeys r._plugins

/-- Class-level state of the `PluginRegistry` singleton (`core/plugin.py`
lines 11-12): `_instance` and `_app` (the Typer app, a `Nat` handle), plus
an allocation counter for the identity of created registry instances. -/
structure PluginRegistryClass where
  _instance : Option RegistryObj := none
  _app : Option Nat := none
  alloc : Nat := 0
deriving DecidableEq, Repr

/-- Classmethod `PluginRegistry.initialize(app)` (`core/plugin.py` lines
18-25): store the Typer app at class level; nothing else happens. -/
def PluginRegistryClass.initializeApp (st : PluginRegistryClass)
    (app : Nat) : PluginRegistryClass :=
  { st with _app := some app }

/-- Classmethod `PluginRegistry.get_instance()` (`core/plugin.py` lines
27-34): raise `RuntimeError` when no instance exists and no app is bound;
create the instance on first successful call; return the stored instance
thereafter. An `.error` result leaves the class state unchanged (the raise
precedes any assignment). -/
def PluginRegistryClass.get_instance (st : PluginRegistryClass) :
    Except PyErr (RegistryObj × PluginRegistryClass) :=
  match st._instance with
  | some r => .ok (r, st)
  | none =>
    match st._app with
    | none => .error (.runtimeError "PluginRegistry not initialized with app")
    | some _ =>
      let r : RegistryObj := { id := st.alloc }
      .ok (r, { st with _instance := some r, alloc := st.alloc + 1 })

/-- A module found by `pkgutil.iter_modules` in the plugins directory, as
seen by `ClientApi._load_plugins` (lines 191-215). `outcome` is what the
`importlib.import_module` / `hasattr` / `setup_plugin(self)` sequence does:
`.error e` when importing the module or running its setup hook raises `e`,
`.ok none` when the module lacks a `setup_plugin` attribute, and
`.ok (some p)` when `setup_plugin(self)` returns the plugin `p`. -/
structure PluginModule where
  name : String
  outcome : Except PyErr (Option PluginBase)
deriving Repr

/-- Body of the per-module `try` block of `ClientApi._load_plugins` (lines
201-212): skip a module name already in `loaded_plugins`; on any exception
from import, setup hook, or `register_plugin`, print and continue with the
registry and the loaded set unchanged; on success record the new registry
state and add the module name to `loaded_plugins`. -/
def loadStep (acc : RegistryObj × List String) (m : PluginModule) :
    RegistryObj × List String :=
  if m.name ∈ acc.2 then acc
  else
    match m.outcome with
    | .error _ => acc
    | .ok none => acc
    | .ok (some plugin) =>
      match acc.1.register_plugin plugin with
      | .error _ => acc
      | .ok r2 => (r2, acc.2 ++ [m.name])

/-- The module loop of `ClientApi._load_plugins` (lines 199-212), run
against an already-obtained registry instance with a fresh
`loaded_plugins` set. -/
def loadPlugins (ms : List PluginModule) (r : RegistryObj) :
    RegistryObj × List String :=
  ms.foldl loadStep (r, [])

/-!
Concrete fixtures used by the witness theorems.
-/

/-- A freshly constructed facade with the empty default configuration. -/
def emptyFacade : ClientApi := { config := {} }

/-- A facade where the extension "cloud" is already registered (with 3 as
the handle of the stored extension object). -/
def cloudFacade : ClientApi :=
  { config := {}, _extensions := [("cloud", some 3)] }

/-- First plugin instance of class `ExamplePlugin`. -/
def examplePluginA : PluginBase := { className := "ExamplePlugin", client := 0 }

/-- A second, distinct plugin instance of the same class (same derived
name "example"). -/
def examplePluginB : PluginBase := { className := "ExamplePlugin", client := 1 }

/-- A plugin instance of class `ResourceManagerPlugin`. -/
def resourcePlugin : PluginBase :=
  { className := "ResourceManagerPlugin", client := 0 }

/-- A registry that already holds `examplePluginA` under "example". -/
def dupRegistry : RegistryObj :=
  { id := 0, _plugins := [("example", examplePluginA)],
    mounted := [("example", [])] }

/-- An empty registry instance. -/
def emptyRegistry : RegistryObj := { id := 0 }

/-- Discoverable module whose setup hook returns `examplePluginA`. -/
def exampleModule : PluginModule :=
  { name := "example_plugin", outcome := .ok (some examplePluginA) }

/-- Discoverable module whose import/setup raises. -/
def brokenModule : PluginModule :=
  { name := "broken_plugin", outcome := .error (.valueError "boom") }

/-- Discoverable module whose setup hook returns `resourcePlugin`. -/
def resourceModule : PluginModule :=
  { name := "resource_manager_plugin", outcome := .ok (some resourcePlugin) }

/-- The `DockerApi` object the fresh facade constructs on first access. -/
def dockerObj : ApiObj := { id := 0, kind := "DockerApi", args := [] }

/-- The facade state after the first successful docker access. -/
def dockerFacade : ClientApi :=
  { config := {}, _apis := [("docker", dockerObj)], alloc := 1 }

/-- A facade whose configuration sets only `GITHUB_TOKEN`. -/
def tokenFacade : ClientApi := { config := { GITHUB_TOKEN := some "tok" } }

/-- An empty process environment. -/
def emptyEnv : Env := fun _ => none

/-!
Generic dictionary lemmas, followed by the claim theorems.
-/

theorem dictLookup_append_of_none {α : Type} (l : List (String × α))
    (a : String) (v : α) (h : dictLookup l a = none) :
    dictLookup (l ++ [(a, v)]) a = some v := by
  induction l with
  | nil => simp [dictLookup]
  | cons kv rest ih =>
    obtain ⟨k, w⟩ := kv
    by_cases hk : k = a
    · simp [dictLookup, hk] at h
    · simp only [dictLookup, List.cons_append, if_neg hk] at h ⊢
      exact ih h

theorem not_mem_keys_of_lookup_none {α : Type} (l : List (String × α))
    (a : String) (h : dictLookup l a = none) : a ∉ dictKeys l := by
  induction l with
  | nil => simp [dictKeys]
  | cons kv rest ih =>
    obtain ⟨k, w⟩ := kv
    by_cases hk : k = a
    · simp [dictLookup, hk] at h
    · simp only [dictLookup, if_neg hk] at h
      simp only [dictKeys, List.map_cons, List.mem_cons]
      rintro (rfl | hmem)
      · exact hk rfl
      · exact ih h hmem

theorem nodup_keys_append_of_none {α : Type} (l : List (String × α))
    (a : String) (v : α) (hnd : (dictKeys l).Nodup)
    (h : dictLookup l a = none) : (dictKeys (l ++ [(a, v)])).Nodup := by
  have hmem := not_mem_keys_of_lookup_none l a h
  simp only [dictKeys, List.map_append, List.map_cons, List.map_nil]
  rw [List.nodup_append]
  exact ⟨hnd, List.nodup_singleton a, by
    intro x hx hx1
    simp only [List.mem_singleton] at hx1
    exact hmem (hx1 ▸ hx)⟩

theorem dictLookup_dictSet_self {α : Type} (l : List (String × α))
    (a : String) (v : α) : dictLookup (dictSet l a v) a = some v := by
  induction l with
  | nil => simp [dictSet, dictLookup]
  | cons kv rest ih =>
    obtain ⟨k, w⟩ := kv
    by_cases hk : k = a
    · simp [dictSet, dictLookup, hk]
    · simp [dictSet, dictLookup, hk, ih]

theorem countKey_nil {α : Type} (a : String) :
    countKey ([] : List (String × α)) a = 0 := rfl

theorem countKey_cons {α : Type} (k : String) (w : α)
    (rest : List (String × α)) (a : String) :
    countKey ((k, w) :: rest) a
      = countKey rest a + (if k = a then 1 else 0) := by
  by_cases hk : k = a <;> simp [countKey, List.countP_cons, hk]

theorem countKey_dictSet_of_le_one {α : Type} (l : List (String × α))
    (a : String) (v : α) (h : countKey l a ≤ 1) :
    countKey (dictSet l a v) a = 1 := by
  induction l with
  | nil =>
    show countKey [(a, v)] a = 1
    rw [countKey_cons, if_pos rfl, countKey_nil]
  | cons kv rest ih =>
    obtain ⟨k, w⟩ := kv
    by_cases hk : k = a
    · rw [countKey_cons, if_pos hk] at h
      have hset : dictSet ((k, w) :: rest) a v = (k, v) :: rest := by
        simp [dictSet, hk]
      rw [hset, countKey_cons, if_pos hk]
      omega
    · rw [countKey_cons, if_neg hk] at h
      have hset : dictSet ((k, w) :: rest) a v
          = (k, w) :: dictSet rest a v := by
        simp [dictSet, hk]
      rw [hset, countKey_cons, if_neg hk]
      simp only [Nat.add_zero] at h ⊢
      exact ih h

theorem countKey_eq_zero_of_not_mem {α : Type} (l : List (String × α))
    (a : String) (h : a ∉ dictKeys l) : countKey l a = 0 := by
  induction l with
  | nil => rfl
  | cons kv rest ih =>
    obtain ⟨k, w⟩ := kv
    simp only [dictKeys, List.map_cons, List.mem_cons, not_or] at h
    rw [countKey_cons, if_neg (fun hk => h.1 hk.symm), ih h.2]

theorem countKey_le_one_of_nodup {α : Type} (l : List (String × α))
    (hnd : (dictKeys l).Nodup) (a : String) : countKey l a ≤ 1 := by
  induction l with
  | nil => exact Nat.zero_le 1
  | cons kv rest ih =>
    obtain ⟨k, w⟩ := kv
    simp only [dictKeys, List.map_cons, List.nodup_cons] at hnd
    rw [countKey_cons]
    by_cases hk : k = a
    · rw [if_pos hk, countKey_eq_zero_of_not_mem rest a (hk ▸ hnd.1)]
    · rw [if_neg hk, Nat.add_zero]
      exact ih hnd.2

theorem getattr_github_token (c : ClientConfig) :
    c.getattr "github_token" = none := rfl

theorem getattr_jira_url (c : ClientConfig) :
    c.getattr "jira_url" = none := rfl

theorem getattr_confluence_url (c : ClientConfig) :
    c.getattr "confluence_url" = none := rfl

theorem getattr_kube_context (c : ClientConfig) :
    c.getattr "kube_context" = none := rfl

/-- C3 counterexample: the name derivation does NOT map the class name
"ResourceManagerPlugin" to "resource-manager" — the lowercased class name
"resourcemanagerplugin" contains no underscore, so no dash is ever
introduced. -/
theorem pluginName_resource_manager_counterexample :
    ¬ (pluginNameOfClass "ResourceManagerPlugin" = "resource-manager") := by
  decide

/-- C3 (amended): the derivation of `PluginBase.name` (lowercase the class
name, strip a trailing "plugin", underscores to dashes) maps
"ResourceManagerPlugin" to "resourcemanager" and "ExamplePlugin" to
"example"; the legacy variant in `apis/plugin_base.py` agrees on both. -/
theorem pluginName_derivation_values :
    pluginNameOfClass "ResourceManagerPlugin" = "resourcemanager"
    ∧ pluginNameOfClass "ExamplePlugin" = "example"
    ∧ pluginNameOfClassLegacy "ResourceManagerPlugin" = "resourcemanager"
    ∧ pluginNameOfClassLegacy "ExamplePlugin" = "example" := by
  refine ⟨?_, ?_, ?_, ?_⟩ <;> decide

/-- C2 (code bug): accessing the `github` capability raises
`AttributeError`, not the configuration `ValueError`, whether or not
`GITHUB_TOKEN` is set, because the accessor reads the lowercase attribute
`github_token` on a model whose declared field is `GITHUB_TOKEN`; `jira`
fails the same way at `jira_url`. The configuration guard is unreachable. -/
theorem github_access_raises_attribute_error :
    ({ config := {} } : ClientApi).github
      = .error (.attributeError
          "ClientConfig object has no attribute github_token")
    ∧ ({ config := { GITHUB_TOKEN := some "token123" } } : ClientApi).github
        = .error (.attributeError
            "ClientConfig object has no attribute github_token")
    ∧ ({ config := { JIRA_URL := some "https://j.example",
                     JIRA_USERNAME := some "u",
                     JIRA_TOKEN := some "t" } } : ClientApi).jira
        = .error (.attributeError
            "ClientConfig object has no attribute jira_url") :=
  ⟨rfl, rfl, rfl⟩

/-- C8: every `ssh` call leaves the capability cache (and the rest of the
facade state) untouched and returns a fresh `SSHApi` instance parameterized
by the given hostname and options; a second call with the same arguments
returns a distinct object (different identity tag). -/
theorem ssh_always_fresh (s : ClientApi) (hostname : String)
    (kwargs : List (String × Option String)) :
    ((s.ssh hostname kwargs).2)._apis = s._apis
    ∧ ((s.ssh hostname kwargs).2)._extensions = s._extensions
    ∧ ((s.ssh hostname kwargs).2).config = s.config
    ∧ (s.ssh hostname kwargs).1.kind = "SSHApi"
    ∧ (s.ssh hostname kwargs).1.args = ("hostname", some hostname) :: kwargs
    ∧ (((s.ssh hostname kwargs).2).ssh hostname kwargs).1.id
        ≠ (s.ssh hostname kwargs).1.id := by
  refine ⟨rfl, rfl, rfl, rfl, rfl, ?_⟩
  simp [ClientApi.ssh]

/-- C9: calling `register_command` twice with the same command name is a
plain dict overwrite: no error is raised (the method is total), and
afterwards the command mapping holds exactly one entry under that name,
carrying the second call's callback, help text and options. -/
theorem register_command_overwrites (p : PluginBase) (n : String)
    (cb1 cb2 : Nat) (h1 h2 : String)
    (o1 o2 : List (String × Option String))
    (hcount : countKey p._commands n ≤ 1) :
    dictLookup ((p.register_command n cb1 h1 o1).register_command
        n cb2 h2 o2)._commands n
      = some { name := n, callback := cb2, help := h2, options := o2 }
    ∧ countKey ((p.register_command n cb1 h1 o1).register_command
        n cb2 h2 o2)._commands n = 1 := by
  constructor
  · simp [PluginBase.register_command, dictLookup_dictSet_self]
  · simp only [PluginBase.register_command]
    exact countKey_dictSet_of_le_one _ n _
      (Nat.le_of_eq (countKey_dictSet_of_le_one _ n _ hcount))

/-- C9 witness at a fresh plugin with two registrations of "hello". -/
theorem register_command_overwrites_witness :
    countKey ({ className := "ExamplePlugin", client := 0 }
        : PluginBase)._commands "hello" ≤ 1
    ∧ (dictLookup ((({ className := "ExamplePlugin", client := 0 }
          : PluginBase).register_command "hello" 1 "Say hello" []
          ).register_command "hello" 2 "Say hello twice" [])._commands "hello"
        = some { name := "hello", callback := 2, help := "Say hello twice",
                 options := [] }
      ∧ countKey ((({ className := "ExamplePlugin", client := 0 }
          : PluginBase).register_command "hello" 1 "Say hello" []
          ).register_command "hello" 2 "Say hello twice" [])._commands "hello"
        = 1) :=
  ⟨by decide,
   register_command_overwrites
     { className := "ExamplePlugin", client := 0 } "hello" 1 2
     "Say hello" "Say hello twice" [] [] (by decide)⟩

/-- C10: `register_extension` accepts `None`: after registering `None` under
a fresh name, `get_extension` returns the same not-found sentinel (`None`)
it returned before the registration, `list_extensions` includes the name,
and a second registration under that name raises the duplicate
`ValueError`. -/
theorem register_none_extension (s : ClientApi) (name : String)
    (x : Option Nat) (h : dictLookup s._extensions name = none) :
    s.get_extension name = none
    ∧ s.register_extension name none
        = .ok { s with _extensions := s._extensions ++ [(name, none)] }
    ∧ ({ s with _extensions := s._extensions ++ [(name, none)] }
        : ClientApi).get_extension name = none
    ∧ name ∈ ({ s with _extensions := s._extensions ++ [(name, none)] }
        : ClientApi).list_extensions
    ∧ ({ s with _extensions := s._extensions ++ [(name, none)] }
        : ClientApi).register_extension name x
        = .error (.valueError
            ("Extension " ++ name ++ " already registered")) := by
  have happ := dictLookup_append_of_none s._extensions name none h
  refine ⟨?_, ?_, ?_, ?_, ?_⟩
  · simp [ClientApi.get_extension, h]
  · simp [ClientApi.register_extension, h]
  · simp [ClientApi.get_extension, happ]
  · simp [ClientApi.list_extensions, dictKeys]
  · simp [ClientApi.register_extension, happ]

/-- C10 witness: a fresh facade, `None` registered as extension "cloud". -/
theorem register_none_extension_witness :
    dictLookup ({ config := {} } : ClientApi)._extensions "cloud" = none
    ∧ (({ config := {} } : ClientApi).get_extension "cloud" = none
       ∧ ({ config := {} } : ClientApi).register_extension "cloud" none
           = .ok { config := {}, _extensions := [("cloud", none)] }
       ∧ ({ config := {}, _extensions := [("cloud", none)] }
           : ClientApi).get_extension "cloud" = none
       ∧ "cloud" ∈ ({ config := {}, _extensions := [("cloud", none)] }
           : ClientApi).list_extensions
       ∧ ({ config := {}, _extensions := [("cloud", none)] }
           : ClientApi).register_extension "cloud" (some 5)
           = .error (.valueError
               ("Extension " ++ "cloud" ++ " already registered"))) :=
  ⟨rfl, register_none_extension { config := {} } "cloud" (some 5) rfl⟩

/-- C4: while the class-level app is unbound and no instance exists, every
`get_instance` call raises `RuntimeError` (and, raising before any
assignment, changes nothing, so every further call fails alike); after an
`initialize(app)` call, `get_instance` succeeds, and any successful call
returning an instance is idempotent: calling again returns the
identically-same instance and leaves the class state unchanged. -/
theorem registry_singleton_contract (st : PluginRegistryClass) (app : Nat)
    (happ : st._app = none) (hinst : st._instance = none) :
    st.get_instance
      = .error (.runtimeError "PluginRegistry not initialized with app")
    ∧ (∃ r st2, (st.initializeApp app).get_instance = .ok (r, st2))
    ∧ ∀ r st2, (st.initializeApp app).get_instance = .ok (r, st2) →
        st2.get_instance = .ok (r, st2) ∧ st2._instance = some r := by
  refine ⟨?_, ?_, ?_⟩
  · simp [PluginRegistryClass.get_instance, happ, hinst]
  · refine ⟨{ id := st.alloc },
      { st with _app := some app, _instance := some { id := st.alloc },
                alloc := st.alloc + 1 }, ?_⟩
    simp [PluginRegistryClass.get_instance, PluginRegistryClass.initializeApp,
      hinst]
  · intro r st2 hok
    simp only [PluginRegistryClass.get_instance,
      PluginRegistryClass.initializeApp, hinst] at hok
    obtain ⟨hr, hst⟩ := Prod.mk.injEq .. ▸ (Except.ok.injEq .. ▸ hok)
    subst hst
    constructor
    · simp [PluginRegistryClass.get_instance, ← hr]
    · simp [← hr]

/-- C4 witness: the fresh class state, then initialization with app 7. -/
theorem registry_singleton_contract_witness :
    ({} : PluginRegistryClass)._app = none
    ∧ ({} : PluginRegistryClass)._instance = none
    ∧ (({} : PluginRegistryClass).get_instance
        = .error (.runtimeError "PluginRegistry not initialized with app")
      ∧ (∃ r st2, (({} : PluginRegistryClass).initializeApp 7).get_instance
          = .ok (r, st2))
      ∧ ∀ r st2, (({} : PluginRegistryClass).initializeApp 7).get_instance
          = .ok (r, st2) →
          st2.get_instance = .ok (r, st2) ∧ st2._instance = some r) :=
  ⟨rfl, rfl, registry_singleton_contract {} 7 rfl rfl⟩

/-- C6: registering an extension under an already-registered name and
registering a plugin whose derived name is already registered both raise a
`ValueError` that propagates (the raise happens before any mutation, so the
state is unchanged), and the first-registered object is still retrievable
under the name afterwards. -/
theorem duplicate_registration_fails_fast (s : ClientApi) (name : String)
    (v w : Option Nat) (r : RegistryObj) (p q : PluginBase)
    (hext : dictLookup s._extensions name = some v)
    (hplug : dictLookup r._plugins q.name = some p) :
    s.register_extension name w
      = .error (.valueError ("Extension " ++ name ++ " already registered"))
    ∧ s.get_extension name = v
    ∧ r.register_plugin q
        = .error (.valueError
            ("Plugin " ++ q.name ++ " already registered"))
    ∧ r.get_plugin q.name = some p := by
  refine ⟨?_, ?_, ?_, ?_⟩
  · simp [ClientApi.register_extension, hext]
  · simp [ClientApi.get_extension, hext]
  · simp [RegistryObj.register_plugin, hplug]
  · simp [RegistryObj.get_plugin, hplug]

/-- C6 witness: extension "cloud" already stored, and a plugin whose class
name "ExamplePlugin" derives the already-registered name "example". -/
theorem duplicate_registration_fails_fast_witness :
    dictLookup cloudFacade._extensions "cloud" = some (some 3)
    ∧ dictLookup dupRegistry._plugins examplePluginB.name
        = some examplePluginA
    ∧ (cloudFacade.register_extension "cloud" (some 9)
        = .error (.valueError
            ("Extension " ++ "cloud" ++ " already registered"))
      ∧ cloudFacade.get_extension "cloud" = some 3
      ∧ dupRegistry.register_plugin examplePluginB
        = .error (.valueError
            ("Plugin " ++ examplePluginB.name ++ " already registered"))
      ∧ dupRegistry.get_plugin examplePluginB.name = some examplePluginA) :=
  ⟨rfl, by decide,
   duplicate_registration_fails_fast cloudFacade "cloud" (some 3) (some 9)
     dupRegistry examplePluginA examplePluginB rfl (by decide)⟩

theorem exportFold_not_mem (l : List (String × Option String)) (env : Env)
    (k : String) (hk : k ∉ l.map Prod.fst) :
    l.foldl exportStep env k = env k := by
  induction l generalizing env with
  | nil => rfl
  | cons kv rest ih =>
    obtain ⟨k0, w0⟩ := kv
    simp only [List.map_cons, List.mem_cons, not_or] at hk
    rw [List.foldl_cons, ih _ hk.2]
    cases w0 with
    | none => rfl
    | some v =>
      simp only [exportStep]
      rw [if_neg hk.1]

theorem exportFold_mem_some (l : List (String × Option String)) (env : Env)
    (k v : String) (hnd : (l.map Prod.fst).Nodup)
    (hmem : (k, some v) ∈ l) :
    l.foldl exportStep env k = some (pyStr v) := by
  induction l generalizing env with
  | nil => cases hmem
  | cons kv rest ih =>
    obtain ⟨k0, w0⟩ := kv
    simp only [List.map_cons, List.nodup_cons] at hnd
    rw [List.foldl_cons]
    rcases List.mem_cons.mp hmem with heq | hmem2
    · cases heq
      rw [exportFold_not_mem rest _ k hnd.1]
      simp [exportStep]
    · exact ih _ hnd.2 hmem2

theorem exportFold_mem_none (l : List (String × Option String)) (env : Env)
    (k : String) (hnd : (l.map Prod.fst).Nodup)
    (hmem : (k, (none : Option String)) ∈ l) :
    l.foldl exportStep env k = env k := by
  induction l generalizing env with
  | nil => cases hmem
  | cons kv rest ih =>
    obtain ⟨k0, w0⟩ := kv
    simp only [List.map_cons, List.nodup_cons] at hnd
    rw [List.foldl_cons]
    rcases List.mem_cons.mp hmem with heq | hmem2
    · cases heq
      rw [exportFold_not_mem rest _ k hnd.1]
      rfl
    · have hne : k ≠ k0 := by
        intro hkk
        exact hnd.1 (hkk ▸ (List.mem_map_of_mem Prod.fst hmem2))
      rw [ih _ hnd.2 hmem2]
      cases w0 with
      | none => rfl
      | some v =>
        simp only [exportStep]
        rw [if_neg hne]

/-- C7: `export_config` writes each configuration field whose value is not
`None` into the environment as a string under exactly that field's name, and
leaves the environment untouched at the name of every field left unset. -/
theorem export_config_fields (s : ClientApi) (env : Env)
    (kv : String × Option String) (hmem : kv ∈ s.config.model_dump) :
    (∀ v, kv.2 = some v → s.export_config env kv.1 = some (pyStr v))
    ∧ (kv.2 = none → s.export_config env kv.1 = env kv.1) := by
  obtain ⟨a, b⟩ := kv
  have hnd : (s.config.model_dump.map Prod.fst).Nodup := by
    show (["GITHUB_TOKEN", "JIRA_URL", "JIRA_USERNAME", "JIRA_TOKEN",
           "CONFLUENCE_URL", "CONFLUENCE_USERNAME", "CONFLUENCE_TOKEN",
           "GOOGLE_CREDENTIALS_FILE", "KUBE_CONFIG_PATH", "KUBE_CONTEXT",
           "OPENSEARCH_INITIAL_ADMIN_PASSWORD"] : List String).Nodup
    decide
  constructor
  · intro v hv
    subst hv
    exact exportFold_mem_some _ env a v hnd hmem
  · intro hb
    subst hb
    exact exportFold_mem_none _ env a hnd hmem

/-- C7 witness: a configuration with only `GITHUB_TOKEN` set, exported into
the empty environment. -/
theorem export_config_fields_witness :
    ("GITHUB_TOKEN", some "tok") ∈ tokenFacade.config.model_dump
    ∧ ((∀ v, (some "tok" : Option String) = some v →
          tokenFacade.export_config emptyEnv "GITHUB_TOKEN"
            = some (pyStr v))
       ∧ ((some "tok" : Option String) = none →
          tokenFacade.export_config emptyEnv "GITHUB_TOKEN"
            = emptyEnv "GITHUB_TOKEN"))
    ∧ tokenFacade.export_config emptyEnv "GITHUB_TOKEN" = some "tok"
    ∧ tokenFacade.export_config emptyEnv "JIRA_URL" = none :=
  ⟨by decide,
   export_config_fields tokenFacade emptyEnv ("GITHUB_TOKEN", some "tok")
     (by decide),
   rfl, rfl⟩

/-- C5: a plugin module whose import or setup hook raises contributes
nothing to a discovery pass — the registry state, the mounted command
groups and the loaded-module set end up exactly as if the failing module
had not been in the directory, so every other module's plugin is registered
as usual and no entry (partial or otherwise) exists for the failing one. -/
theorem load_plugins_skips_failing (ms1 ms2 : List PluginModule)
    (bad : PluginModule) (r : RegistryObj) (e : PyErr)
    (h : bad.outcome = .error e) :
    loadPlugins (ms1 ++ bad :: ms2) r = loadPlugins (ms1 ++ ms2) r := by
  have hstep : ∀ acc, loadStep acc bad = acc := by
    intro acc
    simp [loadStep, h]
  simp [loadPlugins, List.foldl_append, List.foldl_cons, hstep]

/-- C5 witness: three modules where the second raises; the first and third
plugins are registered under their derived names and nothing is registered
for the failing one. -/
theorem load_plugins_skips_failing_witness :
    brokenModule.outcome = .error (.valueError "boom")
    ∧ loadPlugins [exampleModule, brokenModule, resourceModule] emptyRegistry
        = loadPlugins [exampleModule, resourceModule] emptyRegistry
    ∧ (loadPlugins [exampleModule, brokenModule, resourceModule]
          emptyRegistry).1.list_plugins = ["example", "resourcemanager"]
    ∧ (loadPlugins [exampleModule, brokenModule, resourceModule]
          emptyRegistry).2 = ["example_plugin", "resource_manager_plugin"] :=
  ⟨rfl,
   load_plugins_skips_failing [exampleModule] [resourceModule] brokenModule
     emptyRegistry (.valueError "boom") rfl,
   by decide, by decide⟩

/-- C1: for each of the five cached capability accessors (github, jira,
confluence, docker, kubernetes — ssh excluded), if an access succeeds then
accessing the same capability again on the resulting facade returns the
identically-same object and leaves the facade unchanged (so every further
access does too), and the capability cache still has duplicate-free keys —
at most one stored instance per capability name. -/
theorem capability_access_cached (cap : String) (s : ClientApi)
    (v : ApiObj) (s2 : ClientApi)
    (hcap : cap ∈ ["github", "jira", "confluence", "docker", "kubernetes"])
    (hnd : (dictKeys s._apis).Nodup)
    (hacc : s.capabilityAccess cap = .ok (v, s2)) :
    s2.capabilityAccess cap = .ok (v, s2)
    ∧ (dictKeys s2._apis).Nodup
    ∧ ∀ a, countKey s2._apis a ≤ 1 := by
  simp only [List.mem_cons, List.not_mem_nil, or_false] at hcap
  rcases hcap with rfl | rfl | rfl | rfl | rfl
  · -- github
    rcases hl : dictLookup s._apis "github" with _ | obj
    · simp [ClientApi.capabilityAccess, ClientApi.github, hl,
        getattr_github_token] at hacc
    · simp only [ClientApi.capabilityAccess, ClientApi.github, hl,
        Except.ok.injEq, Prod.mk.injEq] at hacc
      obtain ⟨rfl, rfl⟩ := hacc
      refine ⟨?_, hnd, countKey_le_one_of_nodup _ hnd⟩
      simp [ClientApi.capabilityAccess, ClientApi.github, hl]
  · -- jira
    rcases hl : dictLookup s._apis "jira" with _ | obj
    · simp [ClientApi.capabilityAccess, ClientApi.jira, hl,
        getattr_jira_url] at hacc
    · simp only [ClientApi.capabilityAccess, ClientApi.jira, hl,
        Except.ok.injEq, Prod.mk.injEq] at hacc
      obtain ⟨rfl, rfl⟩ := hacc
      refine ⟨?_, hnd, countKey_le_one_of_nodup _ hnd⟩
      simp [ClientApi.capabilityAccess, ClientApi.jira, hl]
  · -- confluence
    rcases hl : dictLookup s._apis "confluence" with _ | obj
    · simp [ClientApi.capabilityAccess, ClientApi.confluence, hl,
        getattr_confluence_url] at hacc
    · simp only [ClientApi.capabilityAccess, ClientApi.confluence, hl,
        Except.ok.injEq, Prod.mk.injEq] at hacc
      obtain ⟨rfl, rfl⟩ := hacc
      refine ⟨?_, hnd, countKey_le_one_of_nodup _ hnd⟩
      simp [ClientApi.capabilityAccess, ClientApi.confluence, hl]
  · -- docker
    rcases hl : dictLookup s._apis "docker" with _ | obj
    · simp only [ClientApi.capabilityAccess, ClientApi.docker, hl,
        Except.ok.injEq, Prod.mk.injEq] at hacc
      obtain ⟨rfl, rfl⟩ := hacc
      have hnd2 := nodup_keys_append_of_none s._apis "docker"
        { id := s.alloc, kind := "DockerApi", args := [] } hnd hl
      refine ⟨?_, hnd2, countKey_le_one_of_nodup _ hnd2⟩
      simp [ClientApi.capabilityAccess, ClientApi.docker,
        dictLookup_append_of_none s._apis "docker" _ hl]
    · simp only [ClientApi.capabilityAccess, ClientApi.docker, hl,
        Except.ok.injEq, Prod.mk.injEq] at hacc
      obtain ⟨rfl, rfl⟩ := hacc
      refine ⟨?_, hnd, countKey_le_one_of_nodup _ hnd⟩
      simp [ClientApi.capabilityAccess, ClientApi.docker, hl]
  · -- kubernetes
    rcases hl : dictLookup s._apis "kubernetes" with _ | obj
    · simp [ClientApi.capabilityAccess, ClientApi.kubernetes, hl,
        getattr_kube_context] at hacc
    · simp only [ClientApi.capabilityAccess, ClientApi.kubernetes, hl,
        Except.ok.injEq, Prod.mk.injEq] at hacc
      obtain ⟨rfl, rfl⟩ := hacc
      refine ⟨?_, hnd, countKey_le_one_of_nodup _ hnd⟩
      simp [ClientApi.capabilityAccess, ClientApi.kubernetes, hl]

/-- C1 witness: the docker capability on a fresh facade — the one accessor
whose first access succeeds — followed by a second access returning the
identically-same cached object. -/
theorem capability_access_cached_witness :
    "docker" ∈ ["github", "jira", "confluence", "docker", "kubernetes"]
    ∧ (dictKeys emptyFacade._apis).Nodup
    ∧ emptyFacade.capabilityAccess "docker" = .ok (dockerObj, dockerFacade)
    ∧ (dockerFacade.capabilityAccess "docker"
          = .ok (dockerObj, dockerFacade)
       ∧ (dictKeys dockerFacade._apis).Nodup
       ∧ ∀ a, countKey dockerFacade._apis a ≤ 1) :=
  ⟨by decide, by decide, rfl,
   capability_access_cached "docker" emptyFacade dockerObj dockerFacade
     (by decide) (by decide) rfl⟩
